import Mathlib

/-!
A shallow embedding of the `rust_scalable_space_engine` sources
(`src/geometry.rs`, `src/entity.rs`, `src/matter_tree.rs`, `src/space_tree.rs`,
`src/player.rs`) together with theorems about the embedded functions.

Conventions used throughout the embedding:
* Rust `i64` is modelled as `Int`; Rust integer division `/` truncates toward
  zero, so it is modelled by `Int.tdiv`.
* Rust `f64` appears only as the entity mass and in `Vec3::div_float`; it is
  idealised as exact rational arithmetic (`Rat`), with the `as i64` cast
  modelled as truncation toward zero.
* Rust `Vec<T>` is modelled as `List T`; a loop that pushes in reverse index
  order is modelled with `List.reverse` so the produced lists match the
  source's element order.
* `num::FromPrimitive::from_usize(..).unwrap()` on an octant index is modelled
  by the total `Quadrant.ofIdx`, whose out-of-range branch is never reached at
  any call site (every call passes a value below 8).
* A Rust `panic!` / `.unwrap()` that can actually fire is modelled with
  `Option` / an explicit outcome type.
-/

/-- `Vec3` from `src/geometry.rs`: a signed 64-bit integer triple. -/
structure Vec3 where
  x : Int
  y : Int
  z : Int
deriving DecidableEq

namespace Vec3

/-- `Vec3::ZERO`. -/
def ZERO : Vec3 := ⟨0, 0, 0⟩

/-- `Vec3::add`. -/
def add (v other : Vec3) : Vec3 :=
  ⟨v.x + other.x, v.y + other.y, v.z + other.z⟩

/-- `Vec3::sub`. -/
def sub (v other : Vec3) : Vec3 :=
  ⟨v.x - other.x, v.y - other.y, v.z - other.z⟩

/-- `Vec3::mul_scalar`. -/
def mul_scalar (v : Vec3) (k : Int) : Vec3 :=
  ⟨v.x * k, v.y * k, v.z * k⟩

/-- `Vec3::div_scalar`. -/
def div_scalar (v : Vec3) (k : Int) : Vec3 :=
  ⟨v.x.tdiv k, v.y.tdiv k, v.z.tdiv k⟩

/-- Truncation of an exact rational toward zero: the idealisation of Rust's
`as i64` cast applied to an `f64` quotient. -/
def ratTrunc (q : Rat) : Int := q.num.tdiv (q.den : Int)

/-- `Vec3::div_float`, with `f64` idealised as `Rat`. -/
def div_float (v : Vec3) (k : Rat) : Vec3 :=
  ⟨ratTrunc ((v.x : Rat) / k), ratTrunc ((v.y : Rat) / k), ratTrunc ((v.z : Rat) / k)⟩

/-- `Vec3::is_inside_centered_cube`: each component lies in
`[-side_length/2, side_length/2 - 1]` (division truncating toward zero). -/
def is_inside_centered_cube (v : Vec3) (side_length : Int) : Bool :=
  let lo := (-side_length).tdiv 2
  let hi := side_length.tdiv 2 - 1
  (decide (v.x ≥ lo) && decide (v.x ≤ hi))
    && (decide (v.y ≥ lo) && decide (v.y ≤ hi))
    && (decide (v.z ≥ lo) && decide (v.z ≤ hi))

end Vec3

/-- `Direction` from `src/geometry.rs`, a signed axis. -/
inductive Direction where
  | Xp
  | Yp
  | Zp
  | Xn
  | Yn
  | Zn
deriving DecidableEq

/-- The `arr[dir as usize]` index of a `Direction` (its `#[repr]` value). -/
def Direction.idx : Direction → Nat
  | .Xp => 0
  | .Yp => 1
  | .Zp => 2
  | .Xn => 3
  | .Yn => 4
  | .Zn => 5

/-- `NB_DIRECTIONS`. -/
def NB_DIRECTIONS : Nat := 6

/-- `Vec3::direction_components`: the signed axes on which the vector is
nonzero, pushed in x, y, z order. -/
def Vec3.direction_components (v : Vec3) : List Direction :=
  (if v.x > 0 then [Direction.Xp] else if v.x < 0 then [Direction.Xn] else [])
    ++ (if v.y > 0 then [Direction.Yp] else if v.y < 0 then [Direction.Yn] else [])
    ++ (if v.z > 0 then [Direction.Zp] else if v.z < 0 then [Direction.Zn] else [])

/-- `FineDirection` from `src/geometry.rs`: one of the 27 neighbour offsets. -/
inductive FineDirection where
  | XnYnZn
  | XnYnZz
  | XnYnZp
  | XnYzZn
  | XnYzZz
  | XnYzZp
  | XnYpZn
  | XnYpZz
  | XnYpZp
  | XzYnZn
  | XzYnZz
  | XzYnZp
  | XzYzZn
  | XzYzZz
  | XzYzZp
  | XzYpZn
  | XzYpZz
  | XzYpZp
  | XpYnZn
  | XpYnZz
  | XpYnZp
  | XpYzZn
  | XpYzZz
  | XpYzZp
  | XpYpZn
  | XpYpZz
  | XpYpZp
deriving DecidableEq

namespace FineDirection

/-- `FineDirection::component`. -/
def component (pos size : Int) : Nat :=
  if pos < -size then 0 else if pos < size then 1 else 2

/-- `FineDirection::outsider_direction_vec`: each axis is
`component(pos, size/2) - 1`, a value in `{-1, 0, 1}`. -/
def outsider_direction_vec (pos : Vec3) (size : Int) : Vec3 :=
  ⟨(component pos.x (size.tdiv 2) : Int) - 1,
   (component pos.y (size.tdiv 2) : Int) - 1,
   (component pos.z (size.tdiv 2) : Int) - 1⟩

end FineDirection

/-- `Quadrant` from `src/geometry.rs`: one of the 8 octants, by 3-bit code. -/
inductive Quadrant where
  | XnYnZn
  | XnYnZp
  | XnYpZn
  | XnYpZp
  | XpYnZn
  | XpYnZp
  | XpYpZn
  | XpYpZp
deriving DecidableEq

/-- `NB_QUADRANTS`. -/
def NB_QUADRANTS : Nat := 8

namespace Quadrant

/-- The `*self as usize` value of a `Quadrant` (its `#[repr]` value). -/
def toIdx : Quadrant → Nat
  | .XnYnZn => 0
  | .XnYnZp => 1
  | .XnYpZn => 2
  | .XnYpZp => 3
  | .XpYnZn => 4
  | .XpYnZp => 5
  | .XpYpZn => 6
  | .XpYpZp => 7

/-- `num::FromPrimitive` on an octant index. Every call site passes a value
below 8, so the source's `.unwrap()` never fires; the final arm is junk for
out-of-range values. -/
def ofIdx : Nat → Quadrant
  | 0 => .XnYnZn
  | 1 => .XnYnZp
  | 2 => .XnYpZn
  | 3 => .XnYpZp
  | 4 => .XpYnZn
  | 5 => .XpYnZp
  | 6 => .XpYpZn
  | 7 => .XpYpZp
  | _ + 8 => .XnYnZn

/-- `Quadrant::x_p`. -/
def x_p (q : Quadrant) : Bool := q.toIdx &&& (1 <<< 2) != 0

/-- `Quadrant::y_p`. -/
def y_p (q : Quadrant) : Bool := q.toIdx &&& (1 <<< 1) != 0

/-- `Quadrant::z_p`. -/
def z_p (q : Quadrant) : Bool := q.toIdx &&& 1 != 0

/-- `Quadrant::from_pos`: classify a point by sign, `≥ 0` giving the positive
bit. -/
def from_pos (pos : Vec3) : Quadrant :=
  ofIdx ((decide (pos.x ≥ 0)).toNat * (1 <<< 2)
    + (decide (pos.y ≥ 0)).toNat * (1 <<< 1)
    + (decide (pos.z ≥ 0)).toNat)

/-- `Quadrant::invert`. -/
def invert : Quadrant → Quadrant
  | .XnYnZn => .XpYpZp
  | .XnYnZp => .XpYpZn
  | .XnYpZn => .XpYnZp
  | .XnYpZp => .XpYnZn
  | .XpYnZn => .XnYpZp
  | .XpYnZp => .XnYpZn
  | .XpYpZn => .XnYnZp
  | .XpYpZp => .XnYnZn

/-- `Quadrant::move_to`: offset each bit by the direction's component; `none`
when a bit would leave `{0, 1}`. -/
def move_to (q : Quadrant) (direction : Vec3) : Option Quadrant :=
  let x : Int := (q.x_p).toNat + direction.x
  let y : Int := (q.y_p).toNat + direction.y
  let z : Int := (q.z_p).toNat + direction.z
  if x > 1 || y > 1 || z > 1 || x < 0 || y < 0 || z < 0 then
    none
  else
    some (ofIdx ((x.toNat <<< 2) + (y.toNat <<< 1) + z.toNat))

/-- `Quadrant::mirror`: xor each bit with (the corresponding direction
component ≠ 0). -/
def mirror (q : Quadrant) (direction : Vec3) : Quadrant :=
  let x := Bool.xor q.x_p (direction.x != 0)
  let y := Bool.xor q.y_p (direction.y != 0)
  let z := Bool.xor q.z_p (direction.z != 0)
  ofIdx ((x.toNat <<< 2) + (y.toNat <<< 1) + z.toNat)

/-- `Quadrant::match_direction`. -/
def match_direction (q : Quadrant) (direction : Vec3) : Bool :=
  let x := (q.x_p && decide (direction.x ≥ 0)) || (!q.x_p && decide (direction.x ≤ 0))
  let y := (q.y_p && decide (direction.y ≥ 0)) || (!q.y_p && decide (direction.y ≤ 0))
  let z := (q.z_p && decide (direction.z ≥ 0)) || (!q.z_p && decide (direction.z ≤ 0))
  x && y && z

end Quadrant

/-- `Vec3::get_quadrant`. -/
def Vec3.get_quadrant (v : Vec3) : Quadrant := Quadrant.from_pos v

/-- `Vec3::remove_matching_quadrant_component`: zero each component whose sign
matches the quadrant's sign on that axis. -/
def Vec3.remove_matching_quadrant_component (v : Vec3) (quadrant : Quadrant) : Vec3 :=
  let x := if (quadrant.x_p && v.x > 0) || (!quadrant.x_p && v.x < 0) then 0 else v.x
  let y := if (quadrant.y_p && v.y > 0) || (!quadrant.y_p && v.y < 0) then 0 else v.y
  let z := if (quadrant.z_p && v.z > 0) || (!quadrant.z_p && v.z < 0) then 0 else v.z
  ⟨x, y, z⟩

/-- `Sphere` from `src/geometry.rs`. -/
structure Sphere where
  center : Vec3
  radius : Int
deriving DecidableEq

namespace Sphere

/-- `Sphere::add_to_center`. -/
def add_to_center (s : Sphere) (v : Vec3) : Sphere :=
  ⟨s.center.add v, s.radius⟩

/-- `Sphere::sub_to_center`. -/
def sub_to_center (s : Sphere) (v : Vec3) : Sphere :=
  ⟨s.center.sub v, s.radius⟩

/-- `Sphere::move_by`. -/
def move_by (s : Sphere) (shift : Vec3) : Sphere :=
  ⟨s.center.add shift, s.radius⟩

/-- `Sphere::is_inside_quadrant`. The source's signature takes a `&Cube` but
uses only its `size`, and every caller passes the size directly, so the
embedding takes the size. -/
def is_inside_quadrant (s : Sphere) (size : Int) (quadrant : Nat) : Bool :=
  let half_size := size.tdiv 2
  let quarter_size := half_size.tdiv 2
  let quarter_vec : Vec3 := ⟨quarter_size, quarter_size, quarter_size⟩
  let bits : Vec3 :=
    ⟨if quadrant &&& (1 <<< 2) != 0 then 1 else 0,
     if quadrant &&& (1 <<< 1) != 0 then 1 else 0,
     if quadrant &&& 1 != 0 then 1 else 0⟩
  let shift := (bits.mul_scalar half_size).sub quarter_vec
  let shifted_center := s.center.sub shift
  shifted_center.is_inside_centered_cube (half_size - s.radius)

end Sphere

/-- `Cube` from `src/geometry.rs`: minimum corner plus side length. -/
structure Cube where
  origin : Vec3
  size : Int
deriving DecidableEq

/-- `Player` from `src/player.rs`: the controller state an entity's `Player`
payload shares with the front end. -/
structure Player where
  control_forces : Vec3
deriving DecidableEq

/-- `CellPart` from `src/matter_tree.rs`. -/
inductive CellPart where
  | CenterOutside
  | PartlyOutside
  | MultiQuadrant
  | Quadrant (q : Quadrant)
deriving DecidableEq

/-- `EntityData` from `src/entity.rs`. The `Voxels` payload (a
`VoxelGridSpace`) is opaque to every function the claims concern, so it is
embedded as a bare constructor. -/
inductive EntityData where
  | Player (player : Player)
  | Voxels
deriving DecidableEq

/-- `Entity` from `src/entity.rs`. `mass: f64` is idealised as `Rat`. -/
structure Entity where
  bounding_sphere : Sphere
  speed : Vec3
  mass : Rat
  entity : EntityData
  external_forces : Vec3
deriving DecidableEq

namespace Entity

/-- `Entity::get_touched_external_cells`. The body past the early exit is an
unimplemented `TODO` in the source and returns an empty vector. -/
def get_touched_external_cells (e : Entity) (area : Cube) : List FineDirection :=
  let half_size : Vec3 := ⟨area.size.tdiv 2, area.size.tdiv 2, area.size.tdiv 2⟩
  let area_center := area.origin.add half_size
  let area_size := area.size
  let relative_sphere_center := e.bounding_sphere.center.sub area_center
  let radius := e.bounding_sphere.radius
  if relative_sphere_center.is_inside_centered_cube (area_size - radius) then
    []
  else
    []

/-- `Entity::get_containing_cell_part`: the four-way classifier, evaluated in
source order with an early-return octant loop over `0..NB_QUADRANTS`. -/
def get_containing_cell_part (e : Entity) (area : Cube) : CellPart :=
  let half_size : Vec3 := ⟨area.size.tdiv 2, area.size.tdiv 2, area.size.tdiv 2⟩
  let area_center := area.origin.add half_size
  let area_size := area.size
  let relative_sphere := e.bounding_sphere.sub_to_center area_center
  if !(relative_sphere.center.is_inside_centered_cube area_size) then
    CellPart.CenterOutside
  else if !(relative_sphere.center.is_inside_centered_cube
      (area_size - relative_sphere.radius)) then
    CellPart.PartlyOutside
  else
    match (List.range NB_QUADRANTS).findSome? (fun i =>
        if relative_sphere.is_inside_quadrant area_size i then
          some (Quadrant.ofIdx i)
        else
          none) with
    | some q => CellPart.Quadrant q
    | none => CellPart.MultiQuadrant

/-- `Entity::get_collisioned_quadrants`. The source computes all three shift
components from bit 2 of the octant index (`i & (1 << 2)`); the embedding
reproduces that as written. -/
def get_collisioned_quadrants (e : Entity) (area : Cube) : List Nat :=
  let half_size : Vec3 := ⟨area.size.tdiv 2, area.size.tdiv 2, area.size.tdiv 2⟩
  let area_center := area.origin.add half_size
  let area_size := area.size
  let relative_sphere_center := e.bounding_sphere.center.sub area_center
  let radius := e.bounding_sphere.radius
  (List.range NB_QUADRANTS).filter (fun i =>
    let shift := (Vec3.mk (i &&& (1 <<< 2) : Nat) (i &&& (1 <<< 2) : Nat)
        (i &&& (1 <<< 2) : Nat)).mul_scalar area_size |>.sub half_size
    let shifted_center := relative_sphere_center.sub shift
    shifted_center.is_inside_centered_cube (area_size.tdiv 2 + radius))

/-- `Entity::switch_space_tree`: re-express the center relative to the
neighbour cell by subtracting `direction * cell_size`. -/
def switch_space_tree (e : Entity) (direction : Vec3) (cell_size : Int) : Entity :=
  { e with bounding_sphere :=
      ⟨e.bounding_sphere.center.sub (direction.mul_scalar cell_size),
       e.bounding_sphere.radius⟩ }

/-- `Entity::run_movement`: add the payload's control forces, translate by the
(pre-update) speed, update the speed when the mass is nonzero, clear the force
accumulator. -/
def run_movement (e : Entity) : Entity :=
  let force_add := match e.entity with
    | EntityData.Player player => player.control_forces
    | EntityData.Voxels => Vec3.ZERO
  let external_forces := e.external_forces.add force_add
  let bounding_sphere := e.bounding_sphere.move_by e.speed
  let speed :=
    if e.mass ≠ 0 then e.speed.add (external_forces.div_float e.mass) else e.speed
  { e with
      bounding_sphere := bounding_sphere
      speed := speed
      external_forces := Vec3.ZERO }

/-- `Entity::check_collision`: an unimplemented `TODO` that returns `false`. -/
def check_collision (_e other : Entity) : Bool :=
  let _ := other
  false

/-- `Entity::apply_collision`: returns early when `check_collision` fails; the
body past the guard is an unimplemented `TODO`, so both entities are returned
unchanged on either path. -/
def apply_collision (e other : Entity) : Entity × Entity :=
  if !(e.check_collision other) then
    (e, other)
  else
    (e, other)

end Entity

/-- `QuadrantMoveOperation` from `src/matter_tree.rs`. -/
inductive QuadrantMoveOperation where
  | ToSubCell (quadrant : Quadrant)
  | ToUpperCell
deriving DecidableEq

/-- `MatterTree` from `src/matter_tree.rs`: a fixed-extent octree node. The
`sub_trees: [Option<Box<Self>>; 8]` array is embedded as a list of options
(length 8 everywhere the source builds one). -/
inductive MatterTree where
  | mk (scale : Nat) (sub_trees : List (Option MatterTree)) (entities : List Entity)
      (area : Cube)

namespace MatterTree

/-- Field accessor: `scale`. -/
def scale : MatterTree → Nat
  | .mk s _ _ _ => s

/-- Field accessor: `sub_trees`. -/
def sub_trees : MatterTree → List (Option MatterTree)
  | .mk _ subs _ _ => subs

/-- Field accessor: `entities`. -/
def entities : MatterTree → List Entity
  | .mk _ _ es _ => es

/-- Field accessor: `area`. -/
def area : MatterTree → Cube
  | .mk _ _ _ a => a

/-- `MatterTree::MIN_SIZE_POW`. -/
def MIN_SIZE_POW : Nat := 5

/-- `MatterTree::MIN_SIZE = 1 << MIN_SIZE_POW`. -/
def MIN_SIZE : Int := 2 ^ MIN_SIZE_POW

/-- `MatterTree::MAX_SCALE = 64 - 1 - MIN_SIZE_POW - 1 - 50` (so 7). -/
def MAX_SCALE : Nat := 64 - 1 - MIN_SIZE_POW - 1 - 50

/-- `MatterTree::MAX_SIZE = 1 << (MIN_SIZE_POW + MAX_SCALE)` (so 4096). -/
def MAX_SIZE : Int := 2 ^ (MIN_SIZE_POW + MAX_SCALE)

mutual

/-- Weight of the tree's `some` children, a termination measure for the
recursions below (a freshly created node weighs 0). -/
def treeSize : MatterTree → Nat
  | .mk _ subs _ _ => subsSize subs

/-- See `treeSize`. -/
def subsSize : List (Option MatterTree) → Nat
  | [] => 0
  | none :: rest => subsSize rest
  | some t :: rest => 1 + treeSize t + subsSize rest

end

/-- `MatterTree::new_tree`. -/
def new_tree (scale : Nat) (area : Cube) : MatterTree :=
  .mk scale (List.replicate NB_QUADRANTS none) [] area

/-- `MatterTree::new`: the root cell, centred on the origin with side
`MAX_SIZE`. -/
def new : MatterTree :=
  new_tree MAX_SCALE ⟨⟨(-MAX_SIZE).tdiv 2, (-MAX_SIZE).tdiv 2, (-MAX_SIZE).tdiv 2⟩, MAX_SIZE⟩

/-- `MatterTree::new_sub_tree`: the child cell of octant `quadrant` of a node
with the given `scale` and `area`. -/
def new_sub_tree (scale : Nat) (area : Cube) (quadrant : Quadrant) : MatterTree :=
  let origin := area.origin
  let size := area.size.tdiv 2
  new_tree (scale - 1)
    ⟨⟨origin.x + (quadrant.x_p.toNat : Int) * size,
      origin.y + (quadrant.y_p.toNat : Int) * size,
      origin.z + (quadrant.z_p.toNat : Int) * size⟩, size⟩

/-- `MatterTree::center`, as a function of the node's `area`. -/
def centerOf (area : Cube) : Vec3 :=
  let half := area.size.tdiv 2
  area.origin.add ⟨half, half, half⟩

/-- `MatterTree::is_empty`. -/
def is_empty (t : MatterTree) : Bool :=
  t.sub_trees.all (fun c => c.isNone) && t.entities.isEmpty

mutual

/-- `MatterTree::nb_entities`. -/
def nb_entities : MatterTree → Nat
  | .mk _ subs es _ => es.length + nbEntitiesSubs subs

/-- The `sub_trees` summation inside `MatterTree::nb_entities`. -/
def nbEntitiesSubs : List (Option MatterTree) → Nat
  | [] => 0
  | none :: rest => nbEntitiesSubs rest
  | some t :: rest => nb_entities t + nbEntitiesSubs rest

end

/-- The octant an entity descends into in `MatterTree::add_entities`: the
octant of its centre, provided the sphere is wholly inside that octant;
`none` means the entity stays at this node. -/
def add_target (area : Cube) (e : Entity) : Option Quadrant :=
  let relative_sphere := e.bounding_sphere.sub_to_center (centerOf area)
  let quadrant := Quadrant.from_pos relative_sphere.center
  if relative_sphere.is_inside_quadrant area.size quadrant.toIdx then
    some quadrant
  else
    none



mutual

/-- `MatterTree::add_entities`. A node keeping at most one entity in total
(or at scale 0) stores everything locally; otherwise each entity wholly
inside an octant descends into that (lazily created) child and the rest stay
here. -/
def add_entities (t : MatterTree) (es : List Entity) : MatterTree :=
  match t with
  | .mk scale subs entities area =>
    if _h : entities.length + es.length ≤ 1 ∨ scale = 0 then
      .mk scale subs (entities ++ es) area
    else
      let stayers := es.filter (fun e => (add_target area e).isNone)
      let perQ := fun i => es.filter (fun e => add_target area e = some (Quadrant.ofIdx i))
      .mk scale (distribute scale area perQ subs 0) (entities ++ stayers) area
termination_by (treeSize t, t.scale, 0)
decreasing_by
  simp [treeSize, subsSize, MatterTree.scale, Prod.lex_def]
  omega

/-- The per-octant loop shared by `MatterTree::add_entities` and
`MatterTree::refresh`: walk the `sub_trees` slots (slot `i` receiving the
entities `perQ i`), lazily creating a child via `new_sub_tree` before calling
`add_entities` on it — the source's `move_entities_to_quadrant`. -/
def distribute (scale : Nat) (area : Cube) (perQ : Nat → List Entity)
    (subs : List (Option MatterTree)) (i : Nat) : List (Option MatterTree) :=
  match subs with
  | [] => []
  | c :: rest =>
    let c2 :=
      if (perQ i).isEmpty then c
      else
        some (add_entities
          (match c with
            | none => new_sub_tree scale area (Quadrant.ofIdx i)
            | some t => t)
          (perQ i))
    c2 :: distribute scale area perQ rest (i + 1)
termination_by (subsSize subs, scale - 1, subs.length + 1)
decreasing_by
  · cases c with
    | none =>
      simp [treeSize, subsSize, new_sub_tree, new_tree, MatterTree.scale,
        NB_QUADRANTS, List.replicate, Prod.lex_def]
      omega
    | some t =>
      simp [treeSize, subsSize, Prod.lex_def]
      omega
  · cases c with
    | none =>
      simp [subsSize, Prod.lex_def]
    | some t =>
      simp [subsSize, Prod.lex_def]
      try omega

end

/-- The route the first loop of `MatterTree::refresh` assigns to one of the
node's own entities: stay (`none`), evict upward, or demote to a child.
`PartlyOutside` is evicted only below `MAX_SCALE`; `Quadrant` is demoted only
above scale 0. -/
def refresh_op (scale : Nat) (area : Cube) (e : Entity) : Option QuadrantMoveOperation :=
  match e.get_containing_cell_part area with
  | CellPart.MultiQuadrant => none
  | CellPart.PartlyOutside =>
    if scale < MAX_SCALE then some QuadrantMoveOperation.ToUpperCell else none
  | CellPart.CenterOutside => some QuadrantMoveOperation.ToUpperCell
  | CellPart.Quadrant quadrant =>
    if scale > 0 then some (QuadrantMoveOperation.ToSubCell quadrant) else none

mutual

/-- The child loop of `MatterTree::refresh`: refresh every present child and
reclassify each returned entity against this node's `area`. Returns the
refreshed slots, the entities rejoining this node's list (`MultiQuadrant`),
the entities evicted further up, and the per-octant demotion lists. A
child-returned entity that reclassifies `PartlyOutside` at a node of scale
`MAX_SCALE` (or `Quadrant(q)` at scale 0) is pushed nowhere, exactly as in
the source. -/
def refreshChildren (scale : Nat) (area : Cube) (subs : List (Option MatterTree)) :
    List (Option MatterTree) × List Entity × List Entity × (Nat → List Entity) :=
  match subs with
  | [] => ([], [], [], fun _ => [])
  | none :: rest =>
    let (rest2, multis, ups, ins) := refreshChildren scale area rest
    (none :: rest2, multis, ups, ins)
  | some c :: rest =>
    let (c2, outs) := refresh c
    let multis0 := outs.filter (fun e =>
      e.get_containing_cell_part area = CellPart.MultiQuadrant)
    let ups0 := outs.filter (fun e =>
      match e.get_containing_cell_part area with
      | CellPart.CenterOutside => true
      | CellPart.PartlyOutside => decide (scale < MAX_SCALE)
      | _ => false)
    let ins0 := fun i =>
      if scale > 0 then
        outs.filter (fun e =>
          e.get_containing_cell_part area = CellPart.Quadrant (Quadrant.ofIdx i))
      else []
    let (rest2, multis, ups, ins) := refreshChildren scale area rest
    (some c2 :: rest2, multis0 ++ multis, ups0 ++ ups, fun i => ins0 i ++ ins i)
termination_by (subsSize subs, subs.length, 0)
decreasing_by
  · simp [subsSize, Prod.lex_def]
  · simp [subsSize, Prod.lex_def]
    omega
  · simp [subsSize, Prod.lex_def]

/-- `MatterTree::refresh`: route the node's own entities, remove the quitters
(the source's descending-index removal yields the reversed order), refresh
the children and reroute what they return, then either keep a lone entity
here (when the local list plus the demotions hold exactly one entity) or
distribute the demotions to the octant children, and finally prune children
that became empty. Returns the refreshed node and the entities evicted
upward. -/
def refresh (t : MatterTree) : MatterTree × List Entity :=
  match t with
  | .mk scale subs entities area =>
    let stay := entities.filter (fun e => refresh_op scale area e = none)
    let outsiders0 := (entities.filter (fun e =>
      refresh_op scale area e = some QuadrantMoveOperation.ToUpperCell)).reverse
    let insiders0 := fun i => (entities.filter (fun e =>
      refresh_op scale area e
        = some (QuadrantMoveOperation.ToSubCell (Quadrant.ofIdx i)))).reverse
    let (subs2, multis, ups, insCh) := refreshChildren scale area subs
    let entities1 := stay ++ multis
    let outsiders := outsiders0 ++ ups
    let insiders := fun i => insiders0 i ++ insCh i
    let insTotal := ((List.range NB_QUADRANTS).map (fun i => (insiders i).length)).sum
    let entities2 :=
      if entities1.length + insTotal = 1 then
        entities1 ++ ((List.range NB_QUADRANTS).map insiders).flatten
      else entities1
    let subs3 :=
      if entities1.length + insTotal = 1 then subs2
      else distribute scale area insiders subs2 0
    let subs4 := subs3.map (fun c =>
      match c with
      | some q => if q.is_empty then none else some q
      | none => none)
    (.mk scale subs4 entities2 area, outsiders)
termination_by (treeSize t, t.sub_trees.length, 1)
decreasing_by
  simp [treeSize, subsSize, MatterTree.sub_trees, Prod.lex_def]

end

end MatterTree

/-- `SpaceTree` from `src/space_tree.rs`: a growable octree whose leaves are
matter trees. The `Parent` variant's `SpaceTreeParent` struct is inlined as
constructor fields. -/
inductive SpaceTree where
  | Parent (scale : Nat) (sub_trees : List (Option SpaceTree))
  | Matter (matter : MatterTree)

namespace SpaceTree

mutual

/-- Weight of the tree's `some` children, a termination measure (a freshly
built subtree weighs 0). -/
def spaceSize : SpaceTree → Nat
  | .Matter _ => 0
  | .Parent _ subs => spaceSubsSize subs

/-- See `spaceSize`. -/
def spaceSubsSize : List (Option SpaceTree) → Nat
  | [] => 0
  | none :: rest => spaceSubsSize rest
  | some t :: rest => 1 + spaceSize t + spaceSubsSize rest

end

/-- `Parent` scale plus one; `Matter` ranks 0. A termination helper. -/
def rank : SpaceTree → Nat
  | .Matter _ => 0
  | .Parent scale _ => scale + 1

/-- The `sub_trees` length of a `Parent`; 0 for `Matter`. A termination
helper. -/
def subsLen : SpaceTree → Nat
  | .Matter _ => 0
  | .Parent _ subs => subs.length

/-- `SpaceTree::new`. -/
def new : SpaceTree := .Matter MatterTree.new

/-- `SpaceTreeParent::build_sub_tree`: a fresh child of a parent of the given
scale — a matter leaf below scale 0, a parent of decremented scale above. -/
def build_sub_tree (scale : Nat) : SpaceTree :=
  if scale = 0 then .Matter MatterTree.new
  else .Parent (scale - 1) (List.replicate NB_QUADRANTS none)

/-- `SpaceTree::new_parent`: an all-empty parent one scale above this tree. -/
def new_parent (t : SpaceTree) : SpaceTree :=
  let scale := match t with
    | .Parent scale _ => scale + 1
    | .Matter _ => 0
  .Parent scale (List.replicate NB_QUADRANTS none)

/-- `SpaceTree::is_empty`. -/
def is_empty : SpaceTree → Bool
  | .Parent _ subs => subs.all (fun c => c.isNone)
  | .Matter matter => matter.is_empty

end SpaceTree

/-- `EntityToDisplaceUp` from `src/space_tree.rs`. The `path` stack is a list
whose head is the top (the source pushes and pops at the `Vec`'s end). -/
structure EntityToDisplaceUp where
  path : List Quadrant
  direction : Vec3
  entity : Entity
deriving DecidableEq

/-- `EntityToDisplaceDown` from `src/space_tree.rs`. -/
structure EntityToDisplaceDown where
  path : List Quadrant
  entity : Entity
deriving DecidableEq

/-- The `From<EntityToDisplaceUp> for EntityToDisplaceDown` conversion: keep
the path and the entity, drop the direction. -/
def EntityToDisplaceUp.toDown (u : EntityToDisplaceUp) : EntityToDisplaceDown :=
  ⟨u.path, u.entity⟩

/-- `path.pop().unwrap()` on an `EntityToDisplaceDown`: `none` models the
panic on an empty path. -/
def EntityToDisplaceDown.popPath (e : EntityToDisplaceDown) :
    Option (Nat × EntityToDisplaceDown) :=
  match e.path with
  | [] => none
  | q :: rest => some (q.toIdx, ⟨rest, e.entity⟩)

namespace SpaceTree

/-- `SpaceTree::get_displaced_outsider`: compute the outsider's direction from
its position at the matter-tree extent and rescale its coordinates into the
neighbour cell. -/
def get_displaced_outsider (entity : Entity) : EntityToDisplaceUp :=
  let direction := FineDirection.outsider_direction_vec
    entity.bounding_sphere.center MatterTree.MAX_SIZE
  let entity2 := entity.switch_space_tree direction MatterTree.MAX_SIZE
  { path := [], direction := direction, entity := entity2 }

mutual

/-- `SpaceTree::relocate_entities`: on a matter leaf, add the entities; on a
parent, pop each entity's path (`none` models the source's `.unwrap()` panic
on an empty path) and recurse per octant, lazily building missing children. -/
def relocate_entities (t : SpaceTree) (es : List EntityToDisplaceDown) :
    Option SpaceTree :=
  match t with
  | .Matter matter => some (.Matter (matter.add_entities (es.map (fun e => e.entity))))
  | .Parent scale subs =>
    match es.mapM EntityToDisplaceDown.popPath with
    | none => none
    | some popped =>
      match relocateSubs scale
          (fun i => (popped.filter (fun p => p.fst = i)).map (fun p => p.snd)) subs 0 with
      | none => none
      | some subs2 => some (.Parent scale subs2)
termination_by (spaceSize t, rank t, 0)
decreasing_by
  simp [spaceSize, spaceSubsSize, rank, Prod.lex_def]

/-- The per-octant loop of `SpaceTree::relocate_entities` (and the identical
second loop of the parent case of `SpaceTree::refresh`): slot `i` receives
the entities `perQ i`, lazily built via `build_sub_tree`. -/
def relocateSubs (scale : Nat) (perQ : Nat → List EntityToDisplaceDown)
    (subs : List (Option SpaceTree)) (i : Nat) : Option (List (Option SpaceTree)) :=
  match subs with
  | [] => some []
  | c :: rest =>
    let c2 : Option (Option SpaceTree) :=
      if (perQ i).isEmpty then some c
      else
        Option.map some (relocate_entities
          (match c with
            | none => build_sub_tree scale
            | some t => t)
          (perQ i))
    Option.bind c2 (fun c3 =>
      Option.map (fun rest2 => c3 :: rest2) (relocateSubs scale perQ rest (i + 1)))
termination_by (spaceSubsSize subs, scale, subs.length + 1)
decreasing_by
  · cases c with
    | none =>
      simp [spaceSize, spaceSubsSize, rank, build_sub_tree, Prod.lex_def]
      split <;> simp [spaceSize, spaceSubsSize, rank, NB_QUADRANTS, List.replicate] <;> omega
    | some t =>
      simp [spaceSize, spaceSubsSize, Prod.lex_def]
      omega
  · cases c with
    | none =>
      simp [spaceSubsSize, Prod.lex_def]
    | some t =>
      simp [spaceSubsSize, Prod.lex_def]
      try omega

end

end SpaceTree

namespace SpaceTree

/-- The routing a parent applies to one outsider returned by child `i` in
`SpaceTree::refresh`: move into the sibling `(ofIdx i).move_to(direction)`
when that exists; otherwise push the mirror octant onto the path, strip the
direction components that move handled, and evict further upward. -/
def routeUp (i : Nat) (u : EntityToDisplaceUp) :
    (Nat × EntityToDisplaceDown) ⊕ EntityToDisplaceUp :=
  match (Quadrant.ofIdx i).move_to u.direction with
  | some relocation => Sum.inl (relocation.toIdx, u.toDown)
  | none =>
    let mirror_quadrant := (Quadrant.ofIdx i).mirror u.direction
    Sum.inr
      { path := mirror_quadrant :: u.path
        direction := u.direction.remove_matching_quadrant_component mirror_quadrant
        entity := u.entity }

mutual

/-- `SpaceTree::refresh`. A matter leaf refreshes its matter tree and wraps
each evicted entity via `get_displaced_outsider`. A parent refreshes every
child, routes each returned outsider to a sibling slot or further upward
(`routeUp`), and then runs the sibling relocations (`relocateSubs`, the
source's second loop). `none` models the `.unwrap()` panic inside
`relocate_entities`. -/
def refresh (t : SpaceTree) : Option (SpaceTree × List EntityToDisplaceUp) :=
  match t with
  | .Matter cell =>
    let (cell2, outsiders) := cell.refresh
    some (.Matter cell2, outsiders.map get_displaced_outsider)
  | .Parent scale subs =>
    match refreshSubs subs 0 with
    | none => none
    | some (subs2, reloc, outsiders) =>
      match relocateSubs scale reloc subs2 0 with
      | none => none
      | some subs3 => some (.Parent scale subs3, outsiders)
termination_by (spaceSize t, subsLen t, 1)
decreasing_by
  simp [spaceSize, spaceSubsSize, subsLen, Prod.lex_def]

/-- The child loop of the parent case of `SpaceTree::refresh`: refresh slot
`i` and route its outsiders, collecting the per-sibling relocation lists and
the outsiders evicted past this parent. -/
def refreshSubs (subs : List (Option SpaceTree)) (i : Nat) :
    Option (List (Option SpaceTree) × (Nat → List EntityToDisplaceDown)
      × List EntityToDisplaceUp) :=
  match subs with
  | [] => some ([], fun _ => [], [])
  | none :: rest =>
    match refreshSubs rest (i + 1) with
    | none => none
    | some (rest2, reloc, ups) => some (none :: rest2, reloc, ups)
  | some c :: rest =>
    match refresh c with
    | none => none
    | some (c2, outs) =>
      let routed := outs.map (routeUp i)
      let reloc0 := fun j =>
        routed.filterMap (fun r =>
          match r with
          | Sum.inl (k, d) => if k = j then some d else none
          | Sum.inr _ => none)
      let ups0 := routed.filterMap (fun r =>
        match r with
        | Sum.inl _ => none
        | Sum.inr u => some u)
      match refreshSubs rest (i + 1) with
      | none => none
      | some (rest2, reloc, ups) =>
        some (some c2 :: rest2, fun j => reloc0 j ++ reloc j, ups0 ++ ups)
termination_by (spaceSubsSize subs, subs.length, 0)
decreasing_by
  · simp [spaceSubsSize, Prod.lex_def]
  · simp [spaceSize, spaceSubsSize, subsLen, Prod.lex_def]
    omega
  · simp [spaceSubsSize, Prod.lex_def]

end

mutual

/-- `SpaceTree::clean_empty_children`: recursively clean every child of a
parent, pruning children that are empty after their own cleaning. A matter
leaf is left as is. -/
def clean_empty_children (t : SpaceTree) : SpaceTree :=
  match t with
  | .Matter m => .Matter m
  | .Parent scale subs => .Parent scale (cleanSubs subs)
termination_by (spaceSize t, subsLen t, 1)
decreasing_by
  simp [spaceSize, spaceSubsSize, subsLen, Prod.lex_def]

/-- The slot loop of `SpaceTree::clean_empty_children`. -/
def cleanSubs (subs : List (Option SpaceTree)) : List (Option SpaceTree) :=
  match subs with
  | [] => []
  | none :: rest => none :: cleanSubs rest
  | some c :: rest =>
    let c2 := clean_empty_children c
    (if c2.is_empty then none else some c2) :: cleanSubs rest
termination_by (spaceSubsSize subs, subs.length, 0)
decreasing_by
  · simp [spaceSubsSize, Prod.lex_def]
  · simp [spaceSize, spaceSubsSize, subsLen, Prod.lex_def]
    omega
  · simp [spaceSubsSize, Prod.lex_def]

end

/-- The `sub_trees.iter().map(is_some as usize).sum()` count in the shrink
loop of `GrowableSpaceTree::refresh`. -/
def countSome (subs : List (Option SpaceTree)) : Nat :=
  (subs.map (fun c => if c.isSome then 1 else 0)).sum

mutual

/-- The trailing shrink loop of `GrowableSpaceTree::refresh`: while the root
is a parent with at most one present child, replace it by its first present
child; stop at a matter leaf, at a parent with two or more children, or at a
childless parent. -/
def shrink_root (t : SpaceTree) : SpaceTree :=
  match t with
  | .Matter m => .Matter m
  | .Parent scale subs =>
    if countSome subs > 1 then .Parent scale subs
    else shrinkFirst (.Parent scale subs) subs
termination_by (spaceSize t, subsLen t, 1)
decreasing_by
  simp [spaceSize, spaceSubsSize, subsLen, Prod.lex_def]

/-- The child search of the shrink loop: continue shrinking from the first
present child, or stop with the original tree when every slot is empty. -/
def shrinkFirst (orig : SpaceTree) (subs : List (Option SpaceTree)) : SpaceTree :=
  match subs with
  | [] => orig
  | none :: rest => shrinkFirst orig rest
  | some child :: _ => shrink_root child
termination_by (spaceSubsSize subs, subs.length, 0)
decreasing_by
  · simp [spaceSubsSize, Prod.lex_def]
  · simp [spaceSize, spaceSubsSize, subsLen, Prod.lex_def]
    omega

end

end SpaceTree

/-- The `[usize; NB_DIRECTIONS]` array of per-direction outsider counts used
by `GrowableSpaceTree::refresh`, one field per `Direction` index. -/
structure ExpansionDirs where
  xp : Nat
  yp : Nat
  zp : Nat
  xn : Nat
  yn : Nat
  zn : Nat
deriving DecidableEq

namespace ExpansionDirs

/-- The all-zero array `[0; NB_DIRECTIONS]`. -/
def zero : ExpansionDirs := ⟨0, 0, 0, 0, 0, 0⟩

/-- `expansion_dirs[dir as usize]`. -/
def get (d : ExpansionDirs) : Direction → Nat
  | .Xp => d.xp
  | .Yp => d.yp
  | .Zp => d.zp
  | .Xn => d.xn
  | .Yn => d.yn
  | .Zn => d.zn

/-- `expansion_dirs[dir as usize] += 1`. -/
def bump (d : ExpansionDirs) : Direction → ExpansionDirs
  | .Xp => { d with xp := d.xp + 1 }
  | .Yp => { d with yp := d.yp + 1 }
  | .Zp => { d with zp := d.zp + 1 }
  | .Xn => { d with xn := d.xn + 1 }
  | .Yn => { d with yn := d.yn + 1 }
  | .Zn => { d with zn := d.zn + 1 }

end ExpansionDirs

/-- `GrowableSpaceTree` from `src/space_tree.rs`. -/
structure GrowableSpaceTree where
  tree : SpaceTree

namespace GrowableSpaceTree

/-- `GrowableSpaceTree::pick_expansion_quadrant`, translated block for block:
an x block (Xp before Xn), a y block (Yp before Yn), and then a second copy
of the y block where the source was presumably meant to consume Zp/Zn — the
z directions are never consumed. Returns the quadrant the old root becomes
(the invert of the expansion octant), the number of direction axes consumed,
and the updated counts. -/
def pick_expansion_quadrant (dirs : ExpansionDirs) :
    (Quadrant × Nat) × ExpansionDirs :=
  let step1 :=
    if dirs.xp ≠ 0 then ({ dirs with xp := 0 }, 1 <<< 2, 1)
    else if dirs.xn ≠ 0 then ({ dirs with xn := 0 }, 0, 1)
    else (dirs, 0, 0)
  let d1 := step1.1
  let i1 : Nat := step1.2.1
  let c1 := step1.2.2
  let step2 :=
    if d1.yp ≠ 0 then ({ d1 with yp := 0 }, i1 + (1 <<< 1), c1 + 1)
    else if d1.yn ≠ 0 then ({ d1 with yn := 0 }, i1, c1 + 1)
    else (d1, i1, c1)
  let d2 := step2.1
  let i2 : Nat := step2.2.1
  let c2 := step2.2.2
  let step3 :=
    if d2.yp ≠ 0 then ({ d2 with yp := 0 }, i2 + (1 <<< 1), c2 + 1)
    else if d2.yn ≠ 0 then ({ d2 with yn := 0 }, i2, c2 + 1)
    else (d2, i2, c2)
  let d3 := step3.1
  let i3 : Nat := step3.2.1
  let c3 := step3.2.2
  (((Quadrant.ofIdx i3).invert, c3), d3)

/-- One step of the direction-counting loop at the top of
`GrowableSpaceTree::refresh`: count a new expansion direction when this
component's slot was still zero, and bump the slot. -/
def countDirStep (acc : ExpansionDirs × Nat) (dir : Direction) : ExpansionDirs × Nat :=
  let nb2 := if acc.1.get dir = 0 then acc.2 + 1 else acc.2
  (acc.1.bump dir, nb2)

/-- The direction-counting loop at the top of `GrowableSpaceTree::refresh`:
for every outsider and every component of its direction, run `countDirStep`.
Returns the final counts and `nb_expansion_dirs`. -/
def count_expansion_dirs (outsiders : List EntityToDisplaceUp) :
    ExpansionDirs × Nat :=
  outsiders.foldl
    (fun acc o => o.direction.direction_components.foldl countDirStep acc)
    (ExpansionDirs.zero, 0)

/-- Result of the growth loop of `GrowableSpaceTree::refresh`: the loop exits
with a tree, panics inside `relocate_entities`, or runs out of fuel (the
source's `while` has no iteration bound). -/
inductive GrowResult where
  | ok (tree : SpaceTree)
  | popPanic
  | fuelOut

/-- The `while nb_expansion_dirs > 0` growth loop of
`GrowableSpaceTree::refresh`, with explicit fuel: pick an expansion octant,
wrap the root in a new parent with the old root at that octant, push the
mirror octant onto every outsider's path, re-insert the outsiders whose
direction points back into the grown root (collected in reverse order, as the
source removes them by descending index), and loop. -/
def growLoop (fuel : Nat) (tree : SpaceTree) (outsiders : List EntityToDisplaceUp)
    (dirs : ExpansionDirs) (nb : Nat) : GrowResult :=
  match fuel with
  | 0 => if nb > 0 then .fuelOut else .ok tree
  | fuel + 1 =>
    if nb > 0 then
      let picked := pick_expansion_quadrant dirs
      let child_quadrant := picked.1.1
      let dirs_consumed := picked.1.2
      let dirs2 := picked.2
      let nb2 := nb - dirs_consumed
      let parent := tree.new_parent
      let tree2 := match parent with
        | SpaceTree.Parent scale subs =>
          SpaceTree.Parent scale (subs.set child_quadrant.toIdx (some tree))
        | SpaceTree.Matter m => SpaceTree.Matter m
      let outsiders2 := outsiders.map (fun o =>
        { o with path := (child_quadrant.mirror o.direction) :: o.path })
      let opposite_quadrant := child_quadrant.invert
      let new_insiders :=
        ((outsiders2.filter (fun o => opposite_quadrant.match_direction o.direction)).reverse).map
          EntityToDisplaceUp.toDown
      let remaining := outsiders2.filter (fun o =>
        !(opposite_quadrant.match_direction o.direction))
      match SpaceTree.relocate_entities tree2 new_insiders with
      | none => .popPanic
      | some tree3 => growLoop fuel tree3 remaining dirs2 nb2
    else
      .ok tree

/-- Outcome of one `GrowableSpaceTree::refresh` call: a refreshed tree, the
explicit `panic!` at the outsider-count guard, a `.unwrap()` panic on an
empty relocation path, or growth-loop fuel exhaustion. -/
inductive RefreshOutcome where
  | ok (g : GrowableSpaceTree)
  | guardPanic
  | popPanic
  | fuelOut

/-- `GrowableSpaceTree::refresh` with explicit fuel for its growth loop:
refresh the root, count the outsiders' expansion directions, panic when more
outsiders than direction axes came back, run the growth loop, then clean
empty children and shrink useless parent levels. -/
def refreshFuel (g : GrowableSpaceTree) (fuel : Nat) : RefreshOutcome :=
  match g.tree.refresh with
  | none => .popPanic
  | some (tree1, outsiders) =>
    let counted := count_expansion_dirs outsiders
    let dirs := counted.1
    let nb := counted.2
    if outsiders.length > nb then .guardPanic
    else
      match growLoop fuel tree1 outsiders dirs nb with
      | .popPanic => .popPanic
      | .fuelOut => .fuelOut
      | .ok tree2 =>
        let tree3 := tree2.clean_empty_children
        .ok ⟨tree3.shrink_root⟩

end GrowableSpaceTree

/-- The inner collision loop `for e in remainder { source.apply_collision(e) }`
(also `for b in outsiders { a.apply_collision(b) }`): collide `a` against each
list element in turn, returning the final `a` and the updated list. -/
def Entity.applyRow (a : Entity) : List Entity → Entity × List Entity
  | [] => (a, [])
  | b :: rest =>
    let p := a.apply_collision b
    let r := p.1.applyRow rest
    (r.1, p.2 :: r.2)

namespace MatterTree

/-- The local pair loop of `MatterTree::apply_neighbourhood_collisions`:
entity `i` collides with every later entity, and its collided octants are
recorded right after its row (the `entity_quadrant` vector). -/
def collide_local (area : Cube) (es : List Entity) : List Entity × List (List Nat) :=
  match es with
  | [] => ([], [])
  | a :: rest =>
    let r := a.applyRow rest
    let quads := r.1.get_collisioned_quadrants area
    let r2 := collide_local area r.2
    (r.1 :: r2.1, quads :: r2.2)
termination_by es.length
decreasing_by
  have hlen : ∀ (x : Entity) (l : List Entity), (x.applyRow l).2.length = l.length := by
    intro x l
    induction l generalizing x with
    | nil => simp [Entity.applyRow]
    | cons y ys ih => simp [Entity.applyRow, ih]
  simp [hlen]

/-- The row loop of `MatterTree::apply_external_collisions`: every local
entity collides with every outsider. -/
def extRows : List Entity → List Entity → List Entity × List Entity
  | [], outs => ([], outs)
  | a :: rest, outs =>
    let r := a.applyRow outs
    let r2 := extRows rest r.2
    (r.1 :: r2.1, r2.2)

/-- `MatterTree::apply_external_collisions`: collide this node's entities
against the passed outsiders (both sides may be mutated). -/
def apply_external_collisions (t : MatterTree) (outsiders : List Entity) :
    MatterTree × List Entity :=
  match t with
  | .mk scale subs es area =>
    let r := extRows es outsiders
    (.mk scale subs r.1 area, r.2)

/-- The `entity_quadrant[j].contains(&i)` selection mask for child `i`. -/
def maskFor (quads : List (List Nat)) (i : Nat) : List Bool :=
  quads.map (fun l => decide (i ∈ l))

/-- The entities whose mask flag is set (the borrow-split `relevant_entities`
iterator). -/
def selectMask : List Entity → List Bool → List Entity
  | [], _ => []
  | _ :: _, [] => []
  | e :: es, b :: bs => if b then e :: selectMask es bs else selectMask es bs

/-- Write the (possibly mutated) selected entities back into their slots;
inverse of `selectMask` over the same mask. -/
def scatterMask : List Entity → List Bool → List Entity → List Entity
  | [], _, _ => []
  | es, [], _ => es
  | e :: es, b :: bs, upd =>
    if b then
      match upd with
      | [] => e :: scatterMask es bs []
      | u :: us => u :: scatterMask es bs us
    else e :: scatterMask es bs upd

/-- The child loop of `MatterTree::apply_neighbourhood_collisions`: each
present child receives (mutable references to) the local entities whose
collided-octant list contains its index. -/
def childCollide (quads : List (List Nat)) :
    List (Option MatterTree) → Nat → List Entity → List (Option MatterTree) × List Entity
  | [], _, es => ([], es)
  | none :: rest, i, es =>
    let r := childCollide quads rest (i + 1) es
    (none :: r.1, r.2)
  | some c :: rest, i, es =>
    let mask := maskFor quads i
    let rel := selectMask es mask
    let r := c.apply_external_collisions rel
    let es1 := scatterMask es mask r.2
    let r2 := childCollide quads rest (i + 1) es1
    (some r.1 :: r2.1, r2.2)

/-- `MatterTree::apply_neighbourhood_collisions`: the local pair pass followed
by the child pass. -/
def apply_neighbourhood_collisions (t : MatterTree) : MatterTree :=
  match t with
  | .mk scale subs es area =>
    let r := collide_local area es
    let r2 := childCollide r.2 subs 0 r.1
    .mk scale r2.1 r2.2 area

end MatterTree

/-- The classifier as §4.2 of the spec words it: `CenterOutside` iff the
centre relative to the area's centre is not in the centred cube of side
`area.size` (componentwise in `[-side/2, side/2 - 1]`, upper face excluded);
otherwise `PartlyOutside` iff the centre is not in the centred cube of side
`area.size - radius`; otherwise `Quadrant(q)` for the first octant `q` in
3-bit-code order (0..7) whose sub-cube wholly contains the sphere per
`Sphere::is_inside_quadrant`; otherwise `MultiQuadrant`. Written from the
spec's words, to be compared with `Entity.get_containing_cell_part`. -/
def cellPartSpec (e : Entity) (area : Cube) : CellPart :=
  let half := area.size.tdiv 2
  let center := e.bounding_sphere.center.sub (area.origin.add ⟨half, half, half⟩)
  let radius := e.bounding_sphere.radius
  let inCenteredCube := fun (v : Vec3) (side : Int) =>
    (decide (-(side.tdiv 2) ≤ v.x) && decide (v.x ≤ side.tdiv 2 - 1))
      && (decide (-(side.tdiv 2) ≤ v.y) && decide (v.y ≤ side.tdiv 2 - 1))
      && (decide (-(side.tdiv 2) ≤ v.z) && decide (v.z ≤ side.tdiv 2 - 1))
  if !(inCenteredCube center area.size) then
    CellPart.CenterOutside
  else if !(inCenteredCube center (area.size - radius)) then
    CellPart.PartlyOutside
  else
    match (List.range NB_QUADRANTS).find?
        (fun i => Sphere.is_inside_quadrant ⟨center, radius⟩ area.size i) with
    | some i => CellPart.Quadrant (Quadrant.ofIdx i)
    | none => CellPart.MultiQuadrant

/-- An entity sitting 8 units inside the root matter cell's +x face
(radius 20, so its sphere crosses the face): it classifies `PartlyOutside`
against the root cell and against the XpYpZp child cell. -/
def leakEntity : Entity :=
  { bounding_sphere := ⟨⟨2040, 1024, 1024⟩, 20⟩
    speed := Vec3.ZERO
    mass := 0
    entity := EntityData.Voxels
    external_forces := Vec3.ZERO }

/-- The XpYpZp child (scale 6) of the root matter cell, holding
`leakEntity`. -/
def leakChild : MatterTree :=
  MatterTree.mk 6 (List.replicate NB_QUADRANTS none) [leakEntity] ⟨⟨0, 0, 0⟩, 2048⟩

/-- A root matter cell (scale `MAX_SCALE` = 7) whose only entity lives in its
XpYpZp child and reclassifies `PartlyOutside` at the root when that child
evicts it. -/
def leakRoot : MatterTree :=
  MatterTree.mk 7 [none, none, none, none, none, none, none, some leakChild] []
    ⟨⟨-2048, -2048, -2048⟩, 4096⟩

/-- An entity wholly inside the XnYnZn octant of a scale-1 cell of side 64
centred on the origin: it classifies `Quadrant(XnYnZn)` there. -/
def loneEntity : Entity :=
  { bounding_sphere := ⟨⟨-16, -16, -16⟩, 1⟩
    speed := Vec3.ZERO
    mass := 0
    entity := EntityData.Voxels
    external_forces := Vec3.ZERO }

/-- A resident of the scale-0 child cell `c3Child`. -/
def grandA : Entity :=
  { bounding_sphere := ⟨⟨8, 8, 8⟩, 1⟩
    speed := Vec3.ZERO
    mass := 0
    entity := EntityData.Voxels
    external_forces := Vec3.ZERO }

/-- A second resident of `c3Child`. -/
def grandB : Entity :=
  { bounding_sphere := ⟨⟨8, 8, 9⟩, 1⟩
    speed := Vec3.ZERO
    mass := 0
    entity := EntityData.Voxels
    external_forces := Vec3.ZERO }

/-- The XpYpZp child (scale 0) of `c3Root`, holding two entities that stay
put under `refresh`. -/
def c3Child : MatterTree :=
  MatterTree.mk 0 (List.replicate NB_QUADRANTS none) [grandA, grandB] ⟨⟨0, 0, 0⟩, 32⟩

/-- A scale-1 matter node holding `loneEntity` (classified `Quadrant(XnYnZn)`)
plus a non-empty child: after `refresh`, the lone-entity branch keeps the
entity at this non-leaf node. -/
def c3Root : MatterTree :=
  MatterTree.mk 1 [none, none, none, none, none, none, none, some c3Child] [loneEntity]
    ⟨⟨-32, -32, -32⟩, 64⟩

/-- An entity past the root matter cell's +z face: its outsider direction is
`(0, 0, 1)`, the direction `pick_expansion_quadrant` never consumes. -/
def zOutEntity : Entity :=
  { bounding_sphere := ⟨⟨100, 100, 3000⟩, 1⟩
    speed := Vec3.ZERO
    mass := 0
    entity := EntityData.Voxels
    external_forces := Vec3.ZERO }

/-- A universe whose single entity has strayed past the root's +z face. -/
def zRoot : GrowableSpaceTree :=
  ⟨SpaceTree.Matter (MatterTree.mk 7 (List.replicate NB_QUADRANTS none) [zOutEntity]
    ⟨⟨-2048, -2048, -2048⟩, 4096⟩)⟩

/-- The expansion-direction counts for a single +z outsider. -/
def zOnlyDirs : ExpansionDirs := ⟨0, 0, 1, 0, 0, 0⟩

/-- An entity past the root matter cell's +x face. -/
def twinA : Entity :=
  { bounding_sphere := ⟨⟨3000, 100, 100⟩, 1⟩
    speed := Vec3.ZERO
    mass := 0
    entity := EntityData.Voxels
    external_forces := Vec3.ZERO }

/-- A second entity past the same +x face. -/
def twinB : Entity :=
  { bounding_sphere := ⟨⟨3000, -100, -100⟩, 1⟩
    speed := Vec3.ZERO
    mass := 0
    entity := EntityData.Voxels
    external_forces := Vec3.ZERO }

/-- A universe in which two entities overflow the root across the same +x
face in the same tick. -/
def twinRoot : GrowableSpaceTree :=
  ⟨SpaceTree.Matter (MatterTree.mk 7 (List.replicate NB_QUADRANTS none) [twinA, twinB]
    ⟨⟨-2048, -2048, -2048⟩, 4096⟩)⟩

/-- An entity whose centre reached `2 · MAX_SIZE` on the x axis (a velocity of
that magnitude in one tick): one cell-size subtraction leaves `|x| = MAX_SIZE`. -/
def fastEntity : Entity :=
  { bounding_sphere := ⟨⟨8192, 0, 0⟩, 1⟩
    speed := Vec3.ZERO
    mass := 0
    entity := EntityData.Voxels
    external_forces := Vec3.ZERO }

/-- An ordinary +x boundary crosser (centre within `2 · MAX_SIZE`). -/
def crossEntity : Entity :=
  { bounding_sphere := ⟨⟨3000, 0, 0⟩, 1⟩
    speed := Vec3.ZERO
    mass := 0
    entity := EntityData.Voxels
    external_forces := Vec3.ZERO }

/-- An outsider heading `+x`, for instantiating the expansion-count bound. -/
def upXp : EntityToDisplaceUp := ⟨[], ⟨1, 0, 0⟩, crossEntity⟩

/-- An outsider heading `-y`, axis-disjoint from `upXp`. -/
def upYn : EntityToDisplaceUp := ⟨[], ⟨0, -1, 0⟩, crossEntity⟩

/-- The outsider `GrowableSpaceTree::refresh` builds from `zOutEntity`: a +z
direction and the centre rescaled into the (nonexistent) +z neighbour cell. -/
def zUp : EntityToDisplaceUp :=
  ⟨[], ⟨0, 0, 1⟩,
    { bounding_sphere := ⟨⟨100, 100, -1096⟩, 1⟩
      speed := Vec3.ZERO
      mass := 0
      entity := EntityData.Voxels
      external_forces := Vec3.ZERO }⟩

/-- A player entity with mass 2, control force (6, -7, 0), velocity (1, 2, 3)
and accumulated force (4, 0, 1), for instantiating the integration step. -/
def movingPlayer : Entity :=
  { bounding_sphere := ⟨⟨10, 20, 30⟩, 5⟩
    speed := ⟨1, 2, 3⟩
    mass := 2
    entity := EntityData.Player ⟨⟨6, -7, 0⟩⟩
    external_forces := ⟨4, 0, 1⟩ }

/-- Claim C7: false on the code — `Entity::get_touched_external_cells` returns
the empty vector for every entity and area, because everything past the
early-exit is an unimplemented `TODO`; an entity whose sphere protrudes
beyond `area` still yields the empty set. -/
theorem get_touched_external_cells_always_empty (e : Entity) (area : Cube) :
    e.get_touched_external_cells area = [] := by
  simp [Entity.get_touched_external_cells]

/-- An early-return search written with `findSome?` over a guard equals
mapping over `find?`. -/
theorem findSome_ite_eq_find_map {α β : Type} (p : α → Bool) (f : α → β) (l : List α) :
    l.findSome? (fun i => if p i then some (f i) else none) = (l.find? p).map f := by
  induction l with
  | nil => rfl
  | cons a l ih =>
    by_cases h : p a = true
    · simp [List.findSome?_cons, List.find?_cons, h]
    · simp only [List.findSome?_cons, List.find?_cons, h, if_neg]
      simp [h, ih]

/-- `Vec3::is_inside_centered_cube` in the spec's interval form
(`[-side/2, side/2 - 1]` componentwise). -/
theorem is_inside_centered_cube_eq_interval (v : Vec3) (side : Int) :
    v.is_inside_centered_cube side
      = ((decide (-(side.tdiv 2) ≤ v.x) && decide (v.x ≤ side.tdiv 2 - 1))
        && (decide (-(side.tdiv 2) ≤ v.y) && decide (v.y ≤ side.tdiv 2 - 1))
        && (decide (-(side.tdiv 2) ≤ v.z) && decide (v.z ≤ side.tdiv 2 - 1))) := by
  simp [Vec3.is_inside_centered_cube, Int.neg_tdiv, ge_iff_le]

/-- Claim C6: `Entity::get_containing_cell_part` agrees with the spec's
four-way classifier — `CenterOutside` first, then `PartlyOutside` against the
cube shrunk by the radius, then the first octant in 3-bit-code order that
wholly contains the sphere per `Sphere::is_inside_quadrant`, else
`MultiQuadrant`. -/
theorem get_containing_cell_part_matches_spec (e : Entity) (area : Cube) :
    e.get_containing_cell_part area = cellPartSpec e area := by
  unfold Entity.get_containing_cell_part cellPartSpec
  simp only [Sphere.sub_to_center, is_inside_centered_cube_eq_interval,
    findSome_ite_eq_find_map]
  cases (List.range NB_QUADRANTS).find?
      (fun i => Sphere.is_inside_quadrant
        ⟨e.bounding_sphere.center.sub
          (area.origin.add ⟨area.size.tdiv 2, area.size.tdiv 2, area.size.tdiv 2⟩),
          e.bounding_sphere.radius⟩ area.size i) <;>
    simp

/-- Claim C9: the quadrant bit-trick laws — `mirror` is an involution for a
fixed direction, `invert` is an involution, `move_to` of the zero vector is
the identity, and `move_to` returns `none` exactly when some axis's bit plus
direction component leaves `{0, 1}`. -/
theorem quadrant_bit_laws (q : Quadrant) (dx dy dz : Int)
    (hx : dx = -1 ∨ dx = 0 ∨ dx = 1)
    (hy : dy = -1 ∨ dy = 0 ∨ dy = 1)
    (hz : dz = -1 ∨ dz = 0 ∨ dz = 1) :
    ((q.mirror ⟨dx, dy, dz⟩).mirror ⟨dx, dy, dz⟩ = q)
    ∧ (q.invert.invert = q)
    ∧ (q.move_to Vec3.ZERO = some q)
    ∧ (q.move_to ⟨dx, dy, dz⟩ = none
        ↔ ((q.x_p.toNat : Int) + dx < 0 ∨ 1 < (q.x_p.toNat : Int) + dx)
          ∨ ((q.y_p.toNat : Int) + dy < 0 ∨ 1 < (q.y_p.toNat : Int) + dy)
          ∨ ((q.z_p.toNat : Int) + dz < 0 ∨ 1 < (q.z_p.toNat : Int) + dz)) := by
  rcases hx with rfl | rfl | rfl <;> rcases hy with rfl | rfl | rfl <;>
    rcases hz with rfl | rfl | rfl <;> cases q <;> decide

/-- Claim C9 at a concrete input: the laws at `q = XpYnZp`,
`dir = (1, -1, 0)`. -/
theorem quadrant_bit_laws_witness :
    ((Quadrant.XpYnZp.mirror ⟨1, -1, 0⟩).mirror ⟨1, -1, 0⟩ = Quadrant.XpYnZp)
    ∧ (Quadrant.XpYnZp.invert.invert = Quadrant.XpYnZp)
    ∧ (Quadrant.XpYnZp.move_to Vec3.ZERO = some Quadrant.XpYnZp)
    ∧ (Quadrant.XpYnZp.move_to ⟨1, -1, 0⟩ = none
        ↔ ((Quadrant.XpYnZp.x_p.toNat : Int) + 1 < 0
            ∨ 1 < (Quadrant.XpYnZp.x_p.toNat : Int) + 1)
          ∨ ((Quadrant.XpYnZp.y_p.toNat : Int) + -1 < 0
            ∨ 1 < (Quadrant.XpYnZp.y_p.toNat : Int) + -1)
          ∨ ((Quadrant.XpYnZp.z_p.toNat : Int) + 0 < 0
            ∨ 1 < (Quadrant.XpYnZp.z_p.toNat : Int) + 0)) :=
  quadrant_bit_laws Quadrant.XpYnZp 1 (-1) 0 (by decide) (by decide) (by decide)

/-- Claim C8: one `Entity::run_movement` call translates the sphere by the
pre-update velocity, leaves the radius (and mass and payload) unchanged,
clears the force accumulator, and — when the mass is positive — adds the
accumulated forces (control forces included) divided by the mass, truncated,
to the velocity; a zero-mass entity's velocity is unchanged. -/
theorem run_movement_ok (e : Entity) :
    (e.run_movement).bounding_sphere.center = e.bounding_sphere.center.add e.speed
    ∧ (e.run_movement).bounding_sphere.radius = e.bounding_sphere.radius
    ∧ (e.run_movement).external_forces = Vec3.ZERO
    ∧ (e.run_movement).mass = e.mass
    ∧ (e.run_movement).entity = e.entity
    ∧ (0 < e.mass →
        (e.run_movement).speed
          = e.speed.add ((e.external_forces.add
              (match e.entity with
                | EntityData.Player player => player.control_forces
                | EntityData.Voxels => Vec3.ZERO)).div_float e.mass))
    ∧ (e.mass = 0 → (e.run_movement).speed = e.speed) := by
  refine ⟨?_, ?_, ?_, ?_, ?_, ?_, ?_⟩ <;>
    simp [Entity.run_movement, Sphere.move_by]
  · intro hm h0
    exact absurd h0 (ne_of_gt hm)
  · intro hm h0
    exact absurd hm h0

/-- `Entity::apply_collision` returns both entities unchanged (its guard
always fails and its body is unimplemented). -/
theorem apply_collision_eq (a b : Entity) : a.apply_collision b = (a, b) := by
  simp [Entity.apply_collision]

/-- A collision row leaves the row entity and the whole list unchanged. -/
theorem applyRow_eq (a : Entity) (l : List Entity) : a.applyRow l = (a, l) := by
  induction l generalizing a with
  | nil => rfl
  | cons b bs ih => simp [Entity.applyRow, apply_collision_eq, ih]

/-- The local pair pass returns the entity list unchanged (paired with the
collided-octant lists). -/
theorem collide_local_fst (area : Cube) (es : List Entity) :
    (MatterTree.collide_local area es).1 = es := by
  induction es with
  | nil => simp [MatterTree.collide_local]
  | cons a rest ih => simp [MatterTree.collide_local, applyRow_eq, ih]

/-- The external-collision rows leave both lists unchanged. -/
theorem extRows_eq (es outs : List Entity) :
    MatterTree.extRows es outs = (es, outs) := by
  induction es generalizing outs with
  | nil => rfl
  | cons a rest ih => simp [MatterTree.extRows, applyRow_eq, ih]

/-- `MatterTree::apply_external_collisions` changes nothing. -/
theorem apply_external_collisions_eq (t : MatterTree) (outs : List Entity) :
    t.apply_external_collisions outs = (t, outs) := by
  cases t
  simp [MatterTree.apply_external_collisions, extRows_eq]

/-- Scattering back exactly what was selected restores the original list. -/
theorem scatterMask_selectMask (es : List Entity) (mask : List Bool) :
    MatterTree.scatterMask es mask (MatterTree.selectMask es mask) = es := by
  induction es generalizing mask with
  | nil => simp [MatterTree.scatterMask]
  | cons e rest ih =>
    cases mask with
    | nil => simp [MatterTree.selectMask, MatterTree.scatterMask]
    | cons b bs =>
      cases b <;> simp [MatterTree.selectMask, MatterTree.scatterMask, ih]

/-- The child pass of the neighbourhood collisions changes neither the
children nor the entity list. -/
theorem childCollide_eq (quads : List (List Nat)) (subs : List (Option MatterTree)) :
    ∀ (i : Nat) (es : List Entity),
      MatterTree.childCollide quads subs i es = (subs, es) := by
  induction subs with
  | nil => intro i es; simp [MatterTree.childCollide]
  | cons c rest ih =>
    intro i es
    cases c with
    | none => simp [MatterTree.childCollide, ih]
    | some child =>
      simp [MatterTree.childCollide, apply_external_collisions_eq,
        scatterMask_selectMask, ih]

/-- Claim C10: `Entity::check_collision` always answers `false`,
`Entity::apply_collision` returns both entities unchanged, and consequently
`MatterTree::apply_external_collisions` and
`MatterTree::apply_neighbourhood_collisions` leave every tree and entity list
exactly as they were. -/
theorem collisions_never_alter_state (a b : Entity) (t : MatterTree)
    (outs : List Entity) :
    a.check_collision b = false
    ∧ a.apply_collision b = (a, b)
    ∧ t.apply_external_collisions outs = (t, outs)
    ∧ t.apply_neighbourhood_collisions = t := by
  refine ⟨rfl, apply_collision_eq a b, apply_external_collisions_eq t outs, ?_⟩
  cases t
  simp [MatterTree.apply_neighbourhood_collisions, collide_local_fst, childCollide_eq]

/-- Claim C5 (amended): the post-crossing coordinate bound holds for every
axis whose pre-crossing coordinate is below `2 · MAX_SIZE` in magnitude —
not for arbitrary velocities. `get_displaced_outsider` computes the direction
via `outsider_direction_vec(center, MAX_SIZE)` and subtracts
`direction · MAX_SIZE` once, so a coordinate at or beyond `2 · MAX_SIZE`
stays at or beyond `MAX_SIZE`. -/
theorem switch_space_tree_bounds_center (e : Entity)
    (hx : |e.bounding_sphere.center.x| < 2 * MatterTree.MAX_SIZE)
    (hy : |e.bounding_sphere.center.y| < 2 * MatterTree.MAX_SIZE)
    (hz : |e.bounding_sphere.center.z| < 2 * MatterTree.MAX_SIZE) :
    |(SpaceTree.get_displaced_outsider e).entity.bounding_sphere.center.x|
        < MatterTree.MAX_SIZE
    ∧ |(SpaceTree.get_displaced_outsider e).entity.bounding_sphere.center.y|
        < MatterTree.MAX_SIZE
    ∧ |(SpaceTree.get_displaced_outsider e).entity.bounding_sphere.center.z|
        < MatterTree.MAX_SIZE := by
  have hM : MatterTree.MAX_SIZE = 4096 := by decide
  have ht : (4096 : Int).tdiv 2 = 2048 := by decide
  obtain ⟨⟨⟨px, py, pz⟩, r⟩, sp, m, pay, fext⟩ := e
  simp only [SpaceTree.get_displaced_outsider, Entity.switch_space_tree,
    FineDirection.outsider_direction_vec, FineDirection.component,
    Vec3.sub, Vec3.mul_scalar, hM, ht] at *
  rw [abs_lt] at hx hy hz
  refine ⟨?_, ?_, ?_⟩ <;> rw [abs_lt] <;> constructor <;>
    split_ifs <;> push_cast <;> omega

/-- Claim C5 at a concrete input: an entity that crossed the +x face at
`x = 3000` is rescaled to `x = -1096`, within the bound on every axis. -/
theorem switch_space_tree_bounds_center_witness :
    |(SpaceTree.get_displaced_outsider crossEntity).entity.bounding_sphere.center.x|
        < MatterTree.MAX_SIZE
    ∧ |(SpaceTree.get_displaced_outsider crossEntity).entity.bounding_sphere.center.y|
        < MatterTree.MAX_SIZE
    ∧ |(SpaceTree.get_displaced_outsider crossEntity).entity.bounding_sphere.center.z|
        < MatterTree.MAX_SIZE :=
  switch_space_tree_bounds_center crossEntity (by decide) (by decide) (by decide)

/-- Claim C5 as stated is false: an entity whose centre reached
`x = 2 · MAX_SIZE = 8192` (one tick at that velocity) is rescaled to
`x = 4096`, and `|4096| < MAX_SIZE` fails. -/
theorem get_displaced_outsider_exceeds_bound :
    ¬ (|(SpaceTree.get_displaced_outsider fastEntity).entity.bounding_sphere.center.x|
        < MatterTree.MAX_SIZE) := by
  decide

/-- Claim C1: the conservation equation fails on the code. In `leakRoot`
(one entity, stored in the XpYpZp child), `refresh` lets the child evict the
entity, reclassifies it `PartlyOutside` at the root — whose scale is
`MAX_SCALE`, so the `self.scale < MAX_SCALE` guard pushes it nowhere — and
the entity vanishes: one entity before, zero entities after, zero outsiders
returned. -/
theorem refresh_drops_partly_outside_at_root :
    MatterTree.nb_entities leakRoot = 1
    ∧ (MatterTree.refresh leakRoot).2 = []
    ∧ MatterTree.nb_entities (MatterTree.refresh leakRoot).1 = 0 := by
  have h1 : leakEntity.get_containing_cell_part ⟨⟨0, 0, 0⟩, 2048⟩
      = CellPart.PartlyOutside := by
    decide
  have h2 : leakEntity.get_containing_cell_part ⟨⟨-2048, -2048, -2048⟩, 4096⟩
      = CellPart.PartlyOutside := by
    decide
  refine ⟨?_, ?_⟩
  · simp [leakRoot, leakChild, MatterTree.nb_entities, MatterTree.nbEntitiesSubs,
      NB_QUADRANTS]
  · simp [leakRoot, leakChild, MatterTree.refresh, MatterTree.refreshChildren,
      MatterTree.refresh_op, MatterTree.distribute, MatterTree.add_entities,
      MatterTree.nb_entities, MatterTree.nbEntitiesSubs, MatterTree.is_empty,
      MatterTree.MAX_SCALE, MatterTree.MIN_SIZE_POW, NB_QUADRANTS, h1, h2,
      MatterTree.sub_trees, MatterTree.entities, MatterTree.scale, MatterTree.area,
      List.range_succ]

/-- Full evaluation of `refresh` on `c3Root`: the lone-entity branch keeps
`loneEntity` at the root while the XpYpZp child (still holding two entities)
survives the prune; no outsider is returned. -/
theorem c3Root_refresh :
    MatterTree.refresh c3Root
      = (MatterTree.mk 1
          [none, none, none, none, none, none, none,
            some (MatterTree.mk 0 [none, none, none, none, none, none, none, none]
              [grandA, grandB] ⟨⟨0, 0, 0⟩, 32⟩)]
          [loneEntity] ⟨⟨-32, -32, -32⟩, 64⟩, []) := by
  have h1 : loneEntity.get_containing_cell_part ⟨⟨-32, -32, -32⟩, 64⟩
      = CellPart.Quadrant Quadrant.XnYnZn := by
    decide
  have h2 : grandA.get_containing_cell_part ⟨⟨0, 0, 0⟩, 32⟩
      = CellPart.Quadrant Quadrant.XnYnZn := by
    decide
  have h3 : grandB.get_containing_cell_part ⟨⟨0, 0, 0⟩, 32⟩
      = CellPart.Quadrant Quadrant.XnYnZn := by
    decide
  simp [c3Root, c3Child, MatterTree.refresh, MatterTree.refreshChildren,
    MatterTree.refresh_op, MatterTree.distribute, MatterTree.is_empty,
    MatterTree.MAX_SCALE, MatterTree.MIN_SIZE_POW, NB_QUADRANTS, h1, h2, h3,
    List.range_succ, List.filter, Quadrant.ofIdx, MatterTree.sub_trees, MatterTree.entities]

/-- Claim C3 is false on the code: after `refresh`, the root of `c3Root` is a
non-leaf matter node (its XpYpZp child is still present) yet it stores
`loneEntity`, which classifies `Quadrant(XnYnZn)` against the node's area —
kept there by the `entities.len() + insiders == 1` branch. -/
theorem refresh_keeps_quadrant_entity_at_nonleaf :
    loneEntity ∈ (MatterTree.refresh c3Root).1.entities
    ∧ loneEntity.get_containing_cell_part (MatterTree.refresh c3Root).1.area
        = CellPart.Quadrant Quadrant.XnYnZn
    ∧ ((MatterTree.refresh c3Root).1.sub_trees.getD 7 none).isSome = true := by
  rw [c3Root_refresh]
  refine ⟨by simp [MatterTree.entities], ?_, by simp [MatterTree.sub_trees]⟩
  simp only [MatterTree.area]
  decide

/-- Every entity the child pass of `refresh` sends back to the node's own
list was classified `MultiQuadrant` against the node's area. -/
theorem refreshChildren_multis_class (scale : Nat) (area : Cube)
    (subs : List (Option MatterTree)) :
    ∀ e ∈ (MatterTree.refreshChildren scale area subs).2.1,
      e.get_containing_cell_part area = CellPart.MultiQuadrant := by
  induction subs with
  | nil =>
    intro e he
    simp [MatterTree.refreshChildren] at he
  | cons c rest ih =>
    intro e he
    cases c with
    | none =>
      rcases hr : MatterTree.refreshChildren scale area rest with ⟨rest2, multis, ups, ins⟩
      rw [MatterTree.refreshChildren, hr] at he
      rw [hr] at ih
      exact ih e he
    | some child =>
      rcases hrc : MatterTree.refresh child with ⟨c2, outs⟩
      rcases hr : MatterTree.refreshChildren scale area rest with ⟨rest2, multis, ups, ins⟩
      rw [MatterTree.refreshChildren, hrc, hr] at he
      rw [hr] at ih
      simp only [List.mem_append] at he
      rcases he with h | h
      · exact of_decide_eq_true (List.mem_filter.mp h).2
      · exact ih e h

/-- After `refresh`, a node's local list either has exactly one entity (the
lone-entity branch fired, or one entity was all that remained) or consists
solely of entities the first loop let stay plus `MultiQuadrant` returns from
children. -/
theorem refresh_entities_cases (scale : Nat) (subs : List (Option MatterTree))
    (entities : List Entity) (area : Cube) :
    (MatterTree.refresh (.mk scale subs entities area)).1.entities.length = 1
    ∨ ∀ e ∈ (MatterTree.refresh (.mk scale subs entities area)).1.entities,
        MatterTree.refresh_op scale area e = none
        ∨ e.get_containing_cell_part area = CellPart.MultiQuadrant := by
  rcases hrc : MatterTree.refreshChildren scale area subs with ⟨subs2, multis, ups, insCh⟩
  simp only [MatterTree.refresh, hrc, MatterTree.entities]
  split
  case isTrue hcond =>
    left
    simp only [List.length_append, List.length_flatten, List.map_map,
      Function.comp_def, List.length_reverse]
    simp only [List.length_append, List.length_reverse] at hcond
    omega
  case isFalse hcond =>
    right
    intro e he
    simp only [List.mem_append] at he
    rcases he with h | h
    · exact Or.inl (of_decide_eq_true (List.mem_filter.mp h).2)
    · have := refreshChildren_multis_class scale area subs
      rw [hrc] at this
      exact Or.inr (this e h)

/-- Claim C3 (amended): after `MatterTree::refresh`, if the refreshed node
(at positive scale) stores an entity classified `Quadrant(q)` against its
area, then that entity is the node's only local entity — the lone-entity
branch is the single way such an entity stays, so "minimal depth" holds
except for a lone entity kept at a non-leaf node. -/
theorem refresh_quadrant_local_is_lone (t : MatterTree) (e : Entity) (q : Quadrant)
    (hs : 0 < t.scale)
    (hm : e ∈ (MatterTree.refresh t).1.entities)
    (hc : e.get_containing_cell_part t.area = CellPart.Quadrant q) :
    (MatterTree.refresh t).1.entities.length = 1 := by
  obtain ⟨scale, subs, entities, area⟩ := t
  simp only [MatterTree.scale] at hs
  simp only [MatterTree.area] at hc
  rcases refresh_entities_cases scale subs entities area with h | h
  · exact h
  · rcases h e hm with hop | hmq
    · rw [MatterTree.refresh_op, hc] at hop
      simp [hs] at hop
    · rw [hc] at hmq
      simp at hmq

/-- Claim C3 (amended) at a concrete input: the refreshed `c3Root` stores
exactly one local entity. -/
theorem refresh_quadrant_local_is_lone_witness :
    (MatterTree.refresh c3Root).1.entities.length = 1 :=
  refresh_quadrant_local_is_lone c3Root loneEntity Quadrant.XnYnZn (by decide)
    (by rw [c3Root_refresh]; simp [MatterTree.entities])
    (by decide)

/-- Relocating an empty per-octant assignment leaves every slot unchanged. -/
theorem relocateSubs_const_nil (scale : Nat) (subs : List (Option SpaceTree)) :
    ∀ (i : Nat), SpaceTree.relocateSubs scale (fun _ => []) subs i = some subs := by
  induction subs with
  | nil => intro i; rw [SpaceTree.relocateSubs.eq_def]
  | cons c rest ih =>
    intro i
    rw [SpaceTree.relocateSubs.eq_def]
    simp [ih]

/-- Relocating no entities into a parent returns it unchanged. -/
theorem relocate_parent_nil (scale : Nat) (subs : List (Option SpaceTree)) :
    SpaceTree.relocate_entities (SpaceTree.Parent scale subs) []
      = some (SpaceTree.Parent scale subs) := by
  rw [SpaceTree.relocate_entities]
  simp [List.mapM.loop, relocateSubs_const_nil]

/-- The growth loop never makes progress on a +z outsider: the third block of
`pick_expansion_quadrant` re-tests the y directions instead of the z ones, so
`dirs_consumed = 0`, `nb_expansion_dirs` stays 1, and the loop only stops by
running out of fuel, whatever the tree. -/
theorem growLoop_z_outsider_stuck :
    ∀ (fuel : Nat) (tree : SpaceTree) (o : EntityToDisplaceUp),
      o.direction = ⟨0, 0, 1⟩ →
      GrowableSpaceTree.growLoop fuel tree [o] zOnlyDirs 1
        = GrowableSpaceTree.GrowResult.fuelOut := by
  intro fuel
  induction fuel with
  | zero =>
    intro tree o hd
    simp [GrowableSpaceTree.growLoop]
  | succ n ih =>
    intro tree o hd
    have hpick : GrowableSpaceTree.pick_expansion_quadrant zOnlyDirs
        = ((Quadrant.XpYpZp, 0), zOnlyDirs) := by decide
    have hmirror : Quadrant.XpYpZp.mirror ⟨0, 0, 1⟩ = Quadrant.XpYpZn := by decide
    have hinv : Quadrant.XpYpZp.invert = Quadrant.XnYnZn := by decide
    have hmatch : Quadrant.XnYnZn.match_direction ⟨0, 0, 1⟩ = false := by decide
    rw [GrowableSpaceTree.growLoop]
    simp only [hpick, SpaceTree.new_parent, hd, hmirror, hinv, hmatch,
      List.map_cons, List.map_nil, List.reverse_nil, List.filter, Bool.not_false,
      Nat.sub_zero, gt_iff_lt, Nat.zero_lt_one, if_true, relocate_parent_nil]
    refine ih _ _ ?_
    simp [hd]

/-- Evaluation of the root refresh of `zRoot`: the matter root evicts its +z
entity, which comes back as the single outsider `zUp` with direction
`(0, 0, 1)`. -/
theorem zRoot_refresh :
    zRoot.tree.refresh
      = some (SpaceTree.Matter (MatterTree.mk 7
          [none, none, none, none, none, none, none, none] []
          ⟨⟨-2048, -2048, -2048⟩, 4096⟩), [zUp]) := by
  have h1 : zOutEntity.get_containing_cell_part ⟨⟨-2048, -2048, -2048⟩, 4096⟩
      = CellPart.CenterOutside := by
    decide
  have hgd : SpaceTree.get_displaced_outsider zOutEntity = zUp := by decide
  simp [zRoot, SpaceTree.refresh, MatterTree.refresh, MatterTree.refreshChildren,
    MatterTree.refresh_op, MatterTree.distribute, MatterTree.is_empty,
    MatterTree.MAX_SCALE, MatterTree.MIN_SIZE_POW, NB_QUADRANTS, h1, hgd,
    List.filter, List.range_succ, Quadrant.ofIdx, MatterTree.sub_trees,
    MatterTree.entities]

/-- Claim C2: false on the code — `GrowableSpaceTree::refresh` does not
terminate on a +z outsider. In `zRoot` one entity leaves the root across the
+z face; `pick_expansion_quadrant` consumes no direction axis (its third
block re-tests Yp/Yn instead of Zp/Zn), `nb_expansion_dirs` stays 1, and the
growth loop runs forever: with any finite fuel the loop ends only by fuel
exhaustion. -/
theorem refresh_growth_loop_diverges_on_z (fuel : Nat) :
    GrowableSpaceTree.refreshFuel zRoot fuel
      = GrowableSpaceTree.RefreshOutcome.fuelOut := by
  have hcount : GrowableSpaceTree.count_expansion_dirs [zUp] = (zOnlyDirs, 1) := by
    decide
  rw [GrowableSpaceTree.refreshFuel, zRoot_refresh]
  simp only [hcount]
  rw [growLoop_z_outsider_stuck fuel _ zUp rfl]
  simp

/-- Bumping one direction slot leaves every other slot unchanged. -/
theorem bump_get_ne (d : ExpansionDirs) (a b : Direction) (h : a ≠ b) :
    (d.bump a).get b = d.get b := by
  cases a <;> cases b <;> simp_all [ExpansionDirs.bump, ExpansionDirs.get]

/-- The direction-count fold never decreases `nb_expansion_dirs`. -/
theorem countFold_mono (ds : List Direction) :
    ∀ (acc : ExpansionDirs × Nat),
      acc.2 ≤ (ds.foldl GrowableSpaceTree.countDirStep acc).2 := by
  induction ds with
  | nil => intro acc; simp
  | cons d ds ih =>
    intro acc
    rw [List.foldl_cons]
    refine le_trans ?_ (ih _)
    simp only [GrowableSpaceTree.countDirStep]
    split <;> omega

/-- The direction-count fold does not touch slots of directions it does not
visit. -/
theorem countFold_get_preserve (ds : List Direction) :
    ∀ (acc : ExpansionDirs × Nat) (b : Direction), b ∉ ds →
      ((ds.foldl GrowableSpaceTree.countDirStep acc).1).get b = acc.1.get b := by
  induction ds with
  | nil => intro acc b _; simp
  | cons d ds ih =>
    intro acc b hb
    rw [List.mem_cons, not_or] at hb
    rw [List.foldl_cons, ih _ b hb.2]
    exact bump_get_ne _ _ _ (fun h => hb.1 h.symm)

/-- Visiting a direction whose slot is still zero increases
`nb_expansion_dirs`. -/
theorem countFold_incr (d : Direction) (ds : List Direction)
    (acc : ExpansionDirs × Nat) (h0 : acc.1.get d = 0) :
    acc.2 + 1 ≤ ((d :: ds).foldl GrowableSpaceTree.countDirStep acc).2 := by
  rw [List.foldl_cons]
  refine le_trans ?_ (countFold_mono ds _)
  simp [GrowableSpaceTree.countDirStep, h0]

/-- Every outsider with a nonzero direction, disjoint in axes from all later
outsiders whose slots are still untouched, contributes at least one new
expansion direction. -/
theorem count_expansion_aux (outs : List EntityToDisplaceUp) :
    ∀ (acc : ExpansionDirs × Nat),
      (∀ o ∈ outs, o.direction.direction_components ≠ []) →
      (∀ o ∈ outs, ∀ d ∈ o.direction.direction_components, acc.1.get d = 0) →
      List.Pairwise (fun a b => ∀ d ∈ a.direction.direction_components,
        d ∉ b.direction.direction_components) outs →
      acc.2 + outs.length
        ≤ (outs.foldl
            (fun acc o => o.direction.direction_components.foldl
              GrowableSpaceTree.countDirStep acc) acc).2 := by
  induction outs with
  | nil => intro acc _ _ _; simp
  | cons o rest ih =>
    intro acc h1 h2 hp
    rw [List.foldl_cons]
    rcases List.pairwise_cons.mp hp with ⟨hdisj, htail⟩
    obtain ⟨d, ds, hds⟩ : ∃ d ds, o.direction.direction_components = d :: ds := by
      cases hcomps : o.direction.direction_components with
      | nil => exact absurd hcomps (h1 o (List.mem_cons_self o rest))
      | cons d ds => exact ⟨d, ds, rfl⟩
    have hstep : acc.2 + 1
        ≤ (o.direction.direction_components.foldl GrowableSpaceTree.countDirStep acc).2 := by
      rw [hds]
      exact countFold_incr d ds acc
        (h2 o (List.mem_cons_self o rest) d (by rw [hds]; exact List.mem_cons_self d ds))
    have hzero : ∀ o2 ∈ rest, ∀ d2 ∈ o2.direction.direction_components,
        ((o.direction.direction_components.foldl GrowableSpaceTree.countDirStep acc).1).get d2
          = 0 := by
      intro o2 ho2 d2 hd2
      have hnot : d2 ∉ o.direction.direction_components :=
        fun hin => (hdisj o2 ho2 d2 hin) hd2
      rw [countFold_get_preserve _ _ _ hnot]
      exact h2 o2 (List.mem_cons_of_mem o ho2) d2 hd2
    have := ih (o.direction.direction_components.foldl GrowableSpaceTree.countDirStep acc)
      (fun o2 h => h1 o2 (List.mem_cons_of_mem o h)) hzero htail
    simp only [List.length_cons]
    omega

/-- Claim C4 (amended): the guard inequality
`outsiders.len() ≤ nb_expansion_dirs` does hold whenever every outsider has a
nonzero direction and no two outsiders share a direction axis — but not in
general: see the same-face counterexample. -/
theorem outsider_count_bounded_by_expansion_dirs (outs : List EntityToDisplaceUp)
    (h1 : ∀ o ∈ outs, o.direction.direction_components ≠ [])
    (h2 : List.Pairwise (fun a b => ∀ d ∈ a.direction.direction_components,
      d ∉ b.direction.direction_components) outs) :
    outs.length ≤ (GrowableSpaceTree.count_expansion_dirs outs).2 := by
  have := count_expansion_aux outs (ExpansionDirs.zero, 0) h1
    (fun o _ d _ => by cases d <;> rfl) h2
  simpa [GrowableSpaceTree.count_expansion_dirs] using this

/-- Claim C4 (amended) at a concrete input: two outsiders heading `+x` and
`-y` respectively stay within the bound. -/
theorem outsider_count_bounded_witness :
    ([upXp, upYn] : List EntityToDisplaceUp).length
      ≤ (GrowableSpaceTree.count_expansion_dirs [upXp, upYn]).2 :=
  outsider_count_bounded_by_expansion_dirs [upXp, upYn] (by decide) (by decide)

/-- Evaluation of the root refresh of `twinRoot`: both entities leave across
the +x face and come back as two outsiders with the same direction
`(1, 0, 0)` (in reverse order, as the source removes them by descending
index). -/
theorem twinRoot_refresh :
    twinRoot.tree.refresh
      = some (SpaceTree.Matter (MatterTree.mk 7
          [none, none, none, none, none, none, none, none] []
          ⟨⟨-2048, -2048, -2048⟩, 4096⟩),
          [⟨[], ⟨1, 0, 0⟩,
            { bounding_sphere := ⟨⟨-1096, -100, -100⟩, 1⟩
              speed := Vec3.ZERO
              mass := 0
              entity := EntityData.Voxels
              external_forces := Vec3.ZERO }⟩,
           ⟨[], ⟨1, 0, 0⟩,
            { bounding_sphere := ⟨⟨-1096, 100, 100⟩, 1⟩
              speed := Vec3.ZERO
              mass := 0
              entity := EntityData.Voxels
              external_forces := Vec3.ZERO }⟩]) := by
  have h1 : twinA.get_containing_cell_part ⟨⟨-2048, -2048, -2048⟩, 4096⟩
      = CellPart.CenterOutside := by
    decide
  have h2 : twinB.get_containing_cell_part ⟨⟨-2048, -2048, -2048⟩, 4096⟩
      = CellPart.CenterOutside := by
    decide
  have hga : SpaceTree.get_displaced_outsider twinA
      = ⟨[], ⟨1, 0, 0⟩,
          { bounding_sphere := ⟨⟨-1096, 100, 100⟩, 1⟩
            speed := Vec3.ZERO
            mass := 0
            entity := EntityData.Voxels
            external_forces := Vec3.ZERO }⟩ := by
    decide
  have hgb : SpaceTree.get_displaced_outsider twinB
      = ⟨[], ⟨1, 0, 0⟩,
          { bounding_sphere := ⟨⟨-1096, -100, -100⟩, 1⟩
            speed := Vec3.ZERO
            mass := 0
            entity := EntityData.Voxels
            external_forces := Vec3.ZERO }⟩ := by
    decide
  simp [twinRoot, SpaceTree.refresh, MatterTree.refresh, MatterTree.refreshChildren,
    MatterTree.refresh_op, MatterTree.distribute, MatterTree.is_empty,
    MatterTree.MAX_SCALE, MatterTree.MIN_SIZE_POW, NB_QUADRANTS, h1, h2, hga, hgb,
    List.filter, List.range_succ, Quadrant.ofIdx, MatterTree.sub_trees,
    MatterTree.entities]

/-- Claim C4 is false on the code: in `twinRoot` two entities overflow the
root across the same +x face in one tick, the root's refresh returns two
outsiders whose directions share the single axis Xp, so
`outsiders.len() = 2 > nb_expansion_dirs = 1` and
`GrowableSpaceTree::refresh` hits its `panic!`. -/
theorem refresh_panics_on_same_face_outsiders :
    GrowableSpaceTree.refreshFuel twinRoot 5
      = GrowableSpaceTree.RefreshOutcome.guardPanic := by
  rw [GrowableSpaceTree.refreshFuel, twinRoot_refresh]
  norm_num [GrowableSpaceTree.count_expansion_dirs, GrowableSpaceTree.countDirStep,
    Vec3.direction_components, ExpansionDirs.zero, ExpansionDirs.get,
    ExpansionDirs.bump]
